import Mathlib

/-!
Shallow embedding of `firebase_admin/remote_config.py` (Firebase Remote Config
server-side module) and verification of its specification claims.

The module's runtime values are dynamically typed Python objects; errors are
Python exceptions.  We model the Python values that the module actually
stores, the JSON shapes it reads, and the exceptions its operations can
raise, and translate each class/method into a Lean definition.
-/

set_option autoImplicit false

namespace RemoteConfig

/-- Python exceptions that operations of this module can raise, plus the two
error classes the specification's taxonomy names.  `keyError k` models
Python's `KeyError(k)` from a failed dict subscript; `attributeError a`
models `AttributeError` from accessing attribute `a` on an object that does
not have it (including `None`); `typeError`/`valueError` model the errors of
Python's `int(...)` coercion.  `notLoadedError` and `malformedTemplateError`
are Modelled from the spec: the spec's error taxonomy names `NotLoadedError`
(evaluate before any load/set) and `MalformedTemplateError` (response JSON
missing required fields); the source defines no such classes and never
raises them, so no definition below ever produces these two constructors. -/
inductive PyError where
  | keyError (k : String)
  | attributeError (attr : String)
  | typeError
  | valueError
  | notLoadedError
  | malformedTemplateError
  deriving Repr, DecidableEq

/-- A JSON value, as stored opaquely in the template fields (`parameters`,
`conditions`, `version`, `parameterGroups` of the fetch response body). -/
inductive Json where
  | null
  | str (s : String)
  | num (n : Int)
  | bool (b : Bool)
  | arr (elems : List Json)
  | obj (fields : List (String × Json))

/-- A dynamically typed Python value, as stored in a config-values dict and
as passed by callers (evaluation-context entries, stray `set` arguments). -/
inductive PyVal where
  | none
  | str (s : String)
  | int (n : Int)
  | bool (b : Bool)
  deriving Repr, DecidableEq

/-- Python's `bool(v)` truthiness: `None` is false, a string is true iff
non-empty, an int is true iff nonzero, a bool is itself. -/
def pyBool : PyVal → Bool
  | .none => false
  | .str s => !s.isEmpty
  | .int n => n != 0
  | .bool b => b

/-- Python's `str(v)` conversion. -/
def pyStr : PyVal → String
  | .none => "None"
  | .str s => s
  | .int n => toString n
  | .bool b => if b then "True" else "False"

/-- Python's `int(v)` coercion: ints pass through, bools map to 0/1,
`int(None)` raises `TypeError`, and a string parses as a decimal integer or
raises `ValueError`. -/
def pyInt : PyVal → Except PyError Int
  | .none => .error .typeError
  | .str s =>
      match s.toInt? with
      | some n => .ok n
      | Option.none => .error .valueError
  | .int n => .ok n
  | .bool b => .ok (if b then 1 else 0)

/-- Models Python `json.dumps` on a string-to-string dict (character escaping
elided; the module only stores this string, nothing reads it back). -/
def jsonDumps (d : List (String × String)) : String :=
  "\x7b" ++ String.intercalate ", "
      (d.map (fun p => "\"" ++ p.1 ++ "\": \"" ++ p.2 ++ "\"")) ++ "\x7d"

/-- The `ServerTemplateData` class: the five private fields its `__init__`
assigns.  `_etag` is `Option String` because `headers.get('ETag')` yields
`None` when the header is absent. -/
structure ServerTemplateData where
  _parameters : Json
  _conditions : Json
  _version : Json
  _parameter_groups : Json
  _etag : Option String

/-- `ServerTemplateData.__init__(headers, response_json)`: subscripts the
response body for `parameters`, `conditions`, `version`, `parameterGroups`
in that order — a missing field raises `KeyError` at that subscript — and
reads the `ETag` header with `headers.get`, which never raises. -/
def ServerTemplateData.init (headers : List (String × String))
    (response_json : List (String × Json)) : Except PyError ServerTemplateData :=
  match response_json.lookup "parameters" with
  | Option.none => .error (.keyError "parameters")
  | some ps =>
    match response_json.lookup "conditions" with
    | Option.none => .error (.keyError "conditions")
    | some cs =>
      match response_json.lookup "version" with
      | Option.none => .error (.keyError "version")
      | some v =>
        match response_json.lookup "parameterGroups" with
        | Option.none => .error (.keyError "parameterGroups")
        | some pgs =>
          .ok { _parameters := ps, _conditions := cs, _version := v,
                _parameter_groups := pgs, _etag := headers.lookup "ETag" }

/-- An evaluation context: the caller-supplied mapping passed to
`ServerTemplate.evaluate`. -/
def EvalContext : Type := List (String × PyVal)

/-- The `_ConditionEvaluator` class.  Its `__init__(self, context, conditions)`
binds the first positional argument to `_context` and the second to
`_conditions`; note that the call site in `ServerTemplate.evaluate` passes
`(self._cache.conditions, context)`, so the cached conditions land in
`_context` and the evaluation context in `_conditions`. -/
structure ConditionEvaluator where
  _context : Json
  _conditions : EvalContext

/-- `_ConditionEvaluator.evaluate`: the body is a stub (`TODO: Write
evaluator` in the source) that returns the empty dict unconditionally. -/
def ConditionEvaluator.evaluate (_e : ConditionEvaluator) : List (String × PyVal) :=
  []

/-- The `ServerConfig` class: wraps the dictionary of param key to values. -/
structure ServerConfig where
  _config_values : List (String × PyVal)
  deriving Repr, DecidableEq

/-- `ServerConfig.get_value(key)`: a Python dict subscript — returns the
stored value when the key is present and raises `KeyError(key)` otherwise.
It reads the dict and never writes it. -/
def ServerConfig.get_value (cfg : ServerConfig) (key : String) : Except PyError PyVal :=
  match cfg._config_values.lookup key with
  | some v => .ok v
  | Option.none => .error (.keyError key)

/-- `ServerConfig.get_boolean(key) = bool(self.get_value(key))`. -/
def ServerConfig.get_boolean (cfg : ServerConfig) (key : String) : Except PyError Bool :=
  (cfg.get_value key).map pyBool

/-- `ServerConfig.get_string(key) = str(self.get_value(key))`. -/
def ServerConfig.get_string (cfg : ServerConfig) (key : String) : Except PyError String :=
  (cfg.get_value key).map pyStr

/-- `ServerConfig.get_int(key) = int(self.get_value(key))`. -/
def ServerConfig.get_int (cfg : ServerConfig) (key : String) : Except PyError Int :=
  (cfg.get_value key).bind pyInt

/-- The `ServerTemplate` class state: the cached template (set by `load` or
`set`, `None` on construction) and the stringified default config.  The
`_rc_service` collaborator obtained from the app registry is external; it is
passed explicitly to `load` below. -/
structure ServerTemplate where
  _cache : Option ServerTemplateData
  _stringified_default_config : Option String

/-- `ServerTemplate.__init__(app, default_config)`: `_cache` starts as
`None`; `_stringified_default_config` is `json.dumps(default_config)` when a
default config is given, else `None`. -/
def ServerTemplate.init (default_config : Option (List (String × String))) :
    ServerTemplate :=
  { _cache := none, _stringified_default_config := default_config.map jsonDumps }

/-- The argument passed to `ServerTemplate.set`: either an object of the
`ServerTemplateData` class or any other Python value. -/
inductive SetArg where
  | templateData (d : ServerTemplateData)
  | other (v : PyVal)

/-- `ServerTemplate.set(template)`: assigns the argument to `_cache` when
`isinstance(template, ServerTemplateData)` holds, and otherwise does nothing
(no exception is raised; `set` returns normally in both cases). -/
def ServerTemplate.set (st : ServerTemplate) (template : SetArg) : ServerTemplate :=
  match template with
  | .templateData d => { st with _cache := some d }
  | .other _ => st

/-- `ServerTemplate.evaluate(context)`: reads `self._cache.conditions` —
when `_cache` is `None` this attribute access raises
`AttributeError("'NoneType' object has no attribute 'conditions'")` —
constructs `_ConditionEvaluator(self._cache.conditions, context)` and wraps
its (stub) result in a `ServerConfig`.  (The source also stores the
evaluator on `self._evaluator`; no claim observes that attribute.) -/
def ServerTemplate.evaluate (st : ServerTemplate) (context : EvalContext) :
    Except PyError ServerConfig :=
  match st._cache with
  | none => .error (.attributeError "conditions")
  | some cache =>
      let evaluator : ConditionEvaluator :=
        { _context := cache._conditions, _conditions := context }
      .ok { _config_values := evaluator.evaluate }

/-- The `_RemoteConfigService` collaborator, reduced to the data its fetch
produces: the response headers and the JSON body returned by the backend
(`headers_and_body` of the HTTP client). -/
structure RemoteConfigService where
  fetchHeaders : List (String × String)
  fetchBody : List (String × Json)

/-- `_RemoteConfigService.get_server_template`: performs the request and
converts the response into a `ServerTemplateData` (whose constructor may
raise on a malformed body). -/
def RemoteConfigService.get_server_template (svc : RemoteConfigService) :
    Except PyError ServerTemplateData :=
  ServerTemplateData.init svc.fetchHeaders svc.fetchBody

/-- Python attribute lookup on a `_RemoteConfigService` instance for the
zero-argument fetch methods: the class defines `get_server_template` (and
`__init__`, and a private url helper); any other attribute name is absent
and its access raises `AttributeError`. -/
def RemoteConfigService.getAttr (svc : RemoteConfigService) (name : String) :
    Option (Unit → Except PyError ServerTemplateData) :=
  if name = "get_server_template" then some (fun _ => svc.get_server_template)
  else none

/-- The attribute name the body of `ServerTemplate.load` uses on its service:
the source line is `self._cache = await self._rc_service.getServerTemplate()`. -/
def loadFetchAttrName : String := "getServerTemplate"

/-- `ServerTemplate.load()`: looks up `getServerTemplate` on the service and
calls it, storing the result in `_cache`; an `AttributeError` from the
lookup, or any exception from the fetch, propagates to the caller. -/
def ServerTemplate.load (st : ServerTemplate) (svc : RemoteConfigService) :
    Except PyError ServerTemplate :=
  match svc.getAttr loadFetchAttrName with
  | some fetch => (fetch ()).map (fun d => { st with _cache := some d })
  | none => .error (.attributeError loadFetchAttrName)

/-- Module-level `init_server_template(app, default_config, template_data)`:
constructs a `ServerTemplate` and, when `template_data` is not `None`, calls
`set` on it.  Purely local: no service interaction. -/
def init_server_template (default_config : Option (List (String × String)))
    (template_data : Option ServerTemplateData) : ServerTemplate :=
  let template := ServerTemplate.init default_config
  match template_data with
  | some d => template.set (.templateData d)
  | none => template

/-- Module-level async `get_server_template(app, default_config)`:
`init_server_template` followed by `await template.load()`, returning the
template (or propagating the exception `load` raises). -/
def get_server_template (svc : RemoteConfigService)
    (default_config : Option (List (String × String))) :
    Except PyError ServerTemplate :=
  (init_server_template default_config none).load svc

/-! Concrete data used by witnesses and counterexamples. -/

/-- The fetch-response template of the welcome-message scenario:
parameters mapping with a single `welcome_msg` entry whose default value is
`hi`, and an empty conditions list. -/
def welcomeTemplate : ServerTemplateData :=
  { _parameters := .obj [("welcome_msg", .obj [("default", .str "hi")])],
    _conditions := .arr [],
    _version := .str "1",
    _parameter_groups := .obj [],
    _etag := some "etag-1" }

/-- A concrete `ServerTemplateData` used to instantiate loaded-template
hypotheses at a specific cached template. -/
def sampleTemplateData : ServerTemplateData :=
  { _parameters := .obj [],
    _conditions := .arr [],
    _version := .str "7",
    _parameter_groups := .obj [],
    _etag := none }

/-- C1: the claim says that for a template whose parameters map binds
`welcome_msg` to default `hi` (empty conditions), `evaluate({})` followed by
`get_string` yields `hi`.  The code does not: the condition evaluator is a
stub returning the empty dict, `evaluate` wraps that empty dict in the
config, and `get_string` on the absent key raises `KeyError` instead of
returning `hi`. -/
theorem c1_welcome_msg_keyerror :
    (init_server_template none (some welcomeTemplate)).evaluate [] =
      .ok (ServerConfig.mk []) ∧
    (ServerConfig.mk []).get_string "welcome_msg" =
      .error (.keyError "welcome_msg") :=
  ⟨rfl, rfl⟩

/-- C2 counterexample: on a freshly constructed `ServerTemplate` (no load,
no set), `evaluate` with the empty context fails with
`AttributeError("conditions")` from dereferencing the `None` cache, which is
not the `NotLoadedError` the claim names. -/
theorem c2_counterexample :
    (ServerTemplate.init none).evaluate [] =
      .error (.attributeError "conditions") ∧
    (ServerTemplate.init none).evaluate [] ≠
      .error PyError.notLoadedError := by
  refine ⟨rfl, fun h => ?_⟩
  rw [show (ServerTemplate.init none).evaluate [] =
        .error (.attributeError "conditions") from rfl] at h
  simp at h

/-- C2 (amended): for every `ServerTemplate` whose cached template is still
absent and every context, `evaluate` fails — with the `AttributeError`
raised by accessing `conditions` on the `None` cache, not with a dedicated
`NotLoadedError` — and never returns a config. -/
theorem c2_unloaded_evaluate_fails (st : ServerTemplate)
    (h : st._cache = none) (ctx : EvalContext) :
    st.evaluate ctx = .error (.attributeError "conditions") := by
  simp [ServerTemplate.evaluate, h]

/-- Witness for C2 (amended) at a fresh template and a nonempty context. -/
theorem c2_unloaded_evaluate_fails_witness :
    (ServerTemplate.init none).evaluate [("user_id", .str "u1")] =
      .error (.attributeError "conditions") :=
  c2_unloaded_evaluate_fails (ServerTemplate.init none) rfl
    [("user_id", .str "u1")]

/-- C3: `set` with a `ServerTemplateData` replaces the cache with exactly
that object (leaving the stringified default config untouched), and `set`
with any other value returns without raising and leaves the template —
cache included — unchanged.  In the model `set` is total (it returns a
`ServerTemplate`, not an `Except`), reflecting that no exception is raised
on either branch of the `isinstance` test. -/
theorem c3_set_isinstance_gate (st : ServerTemplate) (d : ServerTemplateData)
    (v : PyVal) :
    st.set (.templateData d) = { st with _cache := some d } ∧
    st.set (.other v) = st :=
  ⟨rfl, rfl⟩

/-- C4: `get_value` raises `KeyError(key)` exactly when the key is absent
from the config-values dict, and returns the stored value unchanged when
present.  The accessor is a pure read (it is a function of the config and
never produces a modified config), so the config is not mutated. -/
theorem c4_get_value_missing_key (cfg : ServerConfig) (key : String) :
    (match cfg._config_values.lookup key with
     | some v => cfg.get_value key = .ok v
     | none => cfg.get_value key = .error (.keyError key)) := by
  rcases h : cfg._config_values.lookup key with _ | v <;>
    simp [ServerConfig.get_value, h]

/-- C5 counterexample: a response body missing the `parameters` field makes
`ServerTemplateData.__init__` raise `KeyError("parameters")`, which is not
the dedicated `MalformedTemplateError` the claim names. -/
theorem c5_counterexample :
    ServerTemplateData.init [] [("conditions", .arr [])] =
      .error (.keyError "parameters") ∧
    ServerTemplateData.init [] [("conditions", .arr [])] ≠
      .error PyError.malformedTemplateError := by
  refine ⟨rfl, fun h => ?_⟩
  rw [show ServerTemplateData.init [] [("conditions", Json.arr [])] =
        .error (.keyError "parameters") from rfl] at h
  simp at h

/-- C5 (amended): constructing a `ServerTemplateData` from a response body
missing one of `parameters`, `conditions`, `version`, `parameterGroups`
fails immediately with a `KeyError` naming a missing field (not a dedicated
`MalformedTemplateError`); when all four are present, construction succeeds
even without an `ETag` response header, and the etag is exactly
`headers.get("ETag")` — absent when the header is absent. -/
theorem c5_required_fields (headers : List (String × String))
    (rj : List (String × Json)) :
    (match ServerTemplateData.init headers rj with
     | .ok d =>
         (rj.lookup "parameters").isSome ∧ (rj.lookup "conditions").isSome ∧
         (rj.lookup "version").isSome ∧ (rj.lookup "parameterGroups").isSome ∧
         d._etag = headers.lookup "ETag"
     | .error e =>
         (e = .keyError "parameters" ∧ rj.lookup "parameters" = none) ∨
         (e = .keyError "conditions" ∧ rj.lookup "conditions" = none) ∨
         (e = .keyError "version" ∧ rj.lookup "version" = none) ∨
         (e = .keyError "parameterGroups" ∧
           rj.lookup "parameterGroups" = none)) := by
  rcases h1 : rj.lookup "parameters" with _ | ps <;>
    rcases h2 : rj.lookup "conditions" with _ | cs <;>
      rcases h3 : rj.lookup "version" with _ | v <;>
        rcases h4 : rj.lookup "parameterGroups" with _ | pg <;>
          simp [ServerTemplateData.init, h1, h2, h3, h4]

/-- C6: the claim says `get_server_template` returns a loaded template whose
cache is the fetched `ServerTemplateData`.  The code cannot: the body of
`ServerTemplate.load` invokes `self._rc_service.getServerTemplate()`, but
the service class defines the method as `get_server_template`, so for every
service (whatever its fetch would return) and every default config the
attribute lookup raises `AttributeError` and no template is ever returned. -/
theorem c6_load_attribute_error (svc : RemoteConfigService)
    (dc : Option (List (String × String))) :
    get_server_template svc dc = .error (.attributeError "getServerTemplate") :=
  rfl

/-- C7: `init_server_template` seeds the cache with exactly the optional
`template_data` argument — `some d` puts the template in the loaded state
with cache `d`, absent template data leaves it empty (cache `none`) — and
the stringified default config is `json.dumps` of the given default config.
The function takes no service collaborator at all, so no fetch occurs. -/
theorem c7_init_server_template (dc : Option (List (String × String)))
    (td : Option ServerTemplateData) :
    (init_server_template dc td)._cache = td ∧
    (init_server_template dc td)._stringified_default_config =
      dc.map jsonDumps := by
  cases td <;> exact ⟨rfl, rfl⟩

/-- C8: the claim says an empty-child AND combinator evaluates to true and
an empty-child OR to false.  The code never evaluates condition nodes at
all: `_ConditionEvaluator.evaluate` is a stub that returns the empty dict
for every evaluator instance — whatever conditions (combinator nodes
included) and context it was constructed with — so no truth value is ever
produced for any condition. -/
theorem c8_evaluator_stub (e : ConditionEvaluator) : e.evaluate = [] :=
  rfl

/-- C9: for every loaded template (any cached data, any default config) and
every context, `evaluate` returns a `ServerConfig` whose value map is empty,
and on that empty config every accessor — `get_value`, `get_boolean`,
`get_string`, `get_int` — raises `KeyError` for every key: the parameters,
defaults and conditional values of the cached template and the caller
defaults never influence the result. -/
theorem c9_evaluate_empty (st : ServerTemplate) (d : ServerTemplateData)
    (h : st._cache = some d) (ctx : EvalContext) :
    st.evaluate ctx = .ok (ServerConfig.mk []) ∧
    ∀ key : String,
      (ServerConfig.mk []).get_value key = .error (.keyError key) ∧
      (ServerConfig.mk []).get_boolean key = .error (.keyError key) ∧
      (ServerConfig.mk []).get_string key = .error (.keyError key) ∧
      (ServerConfig.mk []).get_int key = .error (.keyError key) := by
  refine ⟨by simp [ServerTemplate.evaluate, h, ConditionEvaluator.evaluate],
    fun key => ⟨rfl, rfl, rfl, rfl⟩⟩

/-- Witness for C9 at a concrete loaded template, context and key. -/
theorem c9_evaluate_empty_witness :
    (init_server_template none (some sampleTemplateData)).evaluate
        [("user_id", .str "u1")] = .ok (ServerConfig.mk []) ∧
    (ServerConfig.mk []).get_value "any_key" = .error (.keyError "any_key") := by
  have h := c9_evaluate_empty (init_server_template none (some sampleTemplateData))
    sampleTemplateData rfl [("user_id", .str "u1")]
  exact ⟨h.1, (h.2 "any_key").1⟩

/-- C10: on a config whose dict binds a key to a Python string,
`get_boolean` returns `bool(stored string)`, which is true exactly when the
string is non-empty — so `false` and `0` (non-empty strings) coerce to
true, and only the empty string coerces to false. -/
theorem c10_get_boolean_string (cfg : ServerConfig) (key : String) (s : String)
    (h : cfg._config_values.lookup key = some (.str s)) :
    cfg.get_boolean key = .ok (!s.isEmpty) := by
  simp [ServerConfig.get_boolean, ServerConfig.get_value, h, Except.map, pyBool]

/-- Witness for C10: the strings `false` and `0` coerce to true and the
empty string coerces to false. -/
theorem c10_get_boolean_string_witness :
    (ServerConfig.mk [("a", .str "false"), ("b", .str "0"), ("c", .str "")]).get_boolean
        "a" = .ok true ∧
    (ServerConfig.mk [("a", .str "false"), ("b", .str "0"), ("c", .str "")]).get_boolean
        "b" = .ok true ∧
    (ServerConfig.mk [("a", .str "false"), ("b", .str "0"), ("c", .str "")]).get_boolean
        "c" = .ok false :=
  ⟨c10_get_boolean_string _ "a" "false" rfl,
   c10_get_boolean_string _ "b" "0" rfl,
   c10_get_boolean_string _ "c" "" rfl⟩

end RemoteConfig
